import Mathlib

/-!
Shallow embedding of the quantile ("pinball") regression objective
(`src/objective/quantile_obj.cu`, class `QuantileRegression`) of the xgboost
repository. Floating-point scalars are modelled as exact rationals; fatal
CHECK failures are modelled as typed errors in `Except`. Helper routines that
live outside the given source file (`common::Quantile`, `common::WeightedQuantile`,
`common::Mean`, `kRtEps`, `CheckInitInputs`, the collective global sum and the
parameter validation) are modelled from the specification and marked as such.
-/

deriving instance DecidableEq for Except

/-- Error taxonomy of the objective, following the specification's names for the
fatal CHECK failures in the source. -/
inductive ObjError where
  | ConfigurationError
  | UnsupportedShapeError
  | ShapeMismatchError
  | SchemaMismatchError
  | EmptyInputError
  | DistributedCommError
deriving DecidableEq, Inhabited

/-- One gradient/hessian pair, `GradientPair` in the source. -/
structure GradientPair where
  grad : ℚ
  hess : ℚ
deriving DecidableEq, Inhabited

/-- The slice of `MetaInfo` read by the objective: the first label column,
the label matrix column count `labels.Shape(1)`, the optional per-sample
weights (empty list means absent), the row count `num_row_`, and the
`ShouldHaveLabels()` flag (modelled as a field since its definition is outside
the given source file). -/
structure MetaInfo where
  labelsCol0 : List ℚ
  labelShape1 : Nat
  weights : List ℚ
  num_row : Nat
  shouldHaveLabels : Bool
deriving DecidableEq

/-- `common::QuantileLossParam`: the `quantile_alpha` parameter. -/
structure QuantileLossParam where
  quantile_alpha : List ℚ
deriving DecidableEq

/-- State of a `QuantileRegression` objective instance: the parameter object
`param_` and the cached level vector `alpha_`. -/
structure QuantileRegression where
  param_ : QuantileLossParam
  alpha_ : List ℚ
deriving DecidableEq

/-- `QuantileRegression::Name()`. -/
def objectiveName : String := "reg:quantileerror"

/-- Modelled from the spec: `QuantileLossParam::Validate` (quantile_loss_utils.h)
is not under src/. Per the spec, configuration rejects only an empty level set;
degenerate levels 0 and 1 are not rejected by name. -/
def validateParam (p : QuantileLossParam) : Except ObjError Unit :=
  if p.quantile_alpha = [] then .error .ConfigurationError else .ok ()

/-- `QuantileRegression::Configure`: update the parameter, validate it, and copy
the level list into `alpha_`. -/
def Configure (levels : List ℚ) : Except ObjError QuantileRegression :=
  match validateParam ⟨levels⟩ with
  | .error e => .error e
  | .ok _ => .ok ⟨⟨levels⟩, levels⟩

/-- `QuantileRegression::Targets`: checks that the objective is configured
(`alpha.size() == alpha_.Size()`), that labels, when they should be present,
have a single column, and that the level list is non-empty; returns
`alpha_.Size() * max(1, labels.Shape(1))`. -/
def QuantileRegression.Targets (obj : QuantileRegression) (info : MetaInfo) :
    Except ObjError Nat :=
  if obj.param_.quantile_alpha.length ≠ obj.alpha_.length then
    .error .ConfigurationError
  else if info.shouldHaveLabels = true ∧ info.labelShape1 ≠ 1 then
    .error .UnsupportedShapeError
  else if obj.param_.quantile_alpha = [] then
    .error .ConfigurationError
  else
    .ok (obj.alpha_.length * max 1 info.labelShape1)

/-- `common::OptionalWeights`: weight of sample `i`, defaulting to 1 when the
weight vector is absent. -/
def weightAt (info : MetaInfo) (i : Nat) : ℚ :=
  if info.weights.isEmpty then 1 else info.weights.getD i 0

/-- `labels(i, 0)`: the label of sample `i`. -/
def labelAt (info : MetaInfo) (i : Nat) : ℚ :=
  info.labelsCol0.getD i 0

/-- `predt(i, j)`: entry of the row-major prediction matrix view with
`nTargets` columns. -/
def predsAt (preds : List ℚ) (nTargets i j : Nat) : ℚ :=
  preds.getD (i * nTargets + j) 0

/-- The per-cell body of the elementwise kernel in `GetGradient`: for residual
`d = predt(i,j) - labels(i,0)`, weight `w` and level `alpha`, the hessian is `w`
and the gradient is `(1 - alpha) * w` when `d >= 0`, else `-alpha * w`. -/
def pinballGradHess (alpha w d : ℚ) : GradientPair :=
  if 0 ≤ d then ⟨(1 - alpha) * w, w⟩ else ⟨-alpha * w, w⟩

/-- The gradient matrix written by the elementwise kernel, one row per sample
and one column per target. -/
def gradCells (obj : QuantileRegression) (info : MetaInfo) (preds : List ℚ)
    (nTargets : Nat) : List (List GradientPair) :=
  (List.range info.num_row).map fun i =>
    (List.range nTargets).map fun j =>
      pinballGradHess (obj.alpha_.getD j 0) (weightAt info i)
        (predsAt preds nTargets i j - labelAt info i)

/-- Modelled from the spec: `CheckInitInputs` (init_estimation.h) is not under
src/; it validates at iteration 0 that label and weight sizes are consistent
with the row count. -/
def checkInitInputs (info : MetaInfo) : Except ObjError Unit :=
  if info.labelsCol0.length ≠ info.num_row then .error .ShapeMismatchError
  else if ¬ info.weights.isEmpty ∧ info.weights.length ≠ info.num_row then
    .error .ShapeMismatchError
  else .ok ()

/-- `QuantileRegression::GetGradient`, with the checks in source order:
`CheckInitInputs` at iteration 0, the configured check, `Targets` (which
rejects multi-column labels), `CHECK_NE(n_alphas, 0)`,
`CHECK_GE(n_targets, n_alphas)`, the prediction-size check
`CHECK_EQ(preds.Size(), num_row * n_targets)`, the single-column label check,
then the elementwise kernel. -/
def GetGradient (obj : QuantileRegression) (info : MetaInfo) (preds : List ℚ)
    (iter : ℤ) : Except ObjError (List (List GradientPair)) :=
  match (if iter = 0 then checkInitInputs info else .ok ()) with
  | .error e => .error e
  | .ok _ =>
    if obj.param_.quantile_alpha.length ≠ obj.alpha_.length then
      .error .ConfigurationError
    else
      match obj.Targets info with
      | .error e => .error e
      | .ok nTargets =>
        if obj.alpha_.length = 0 then .error .ConfigurationError
        else if nTargets < obj.alpha_.length then .error .ConfigurationError
        else if preds.length ≠ info.num_row * nTargets then .error .ShapeMismatchError
        else if info.labelShape1 ≠ 1 then .error .UnsupportedShapeError
        else .ok (gradCells obj info preds nTargets)

/-- Modelled from the spec: `common::Quantile` (stats.h) is not under src/.
Ordinary order-statistic interpolation: position `alpha * (n - 1)` on the
sorted labels, interpolating linearly between neighbouring order statistics;
fails with `EmptyInputError` on an empty shard. -/
def specQuantile (alpha : ℚ) (xs : List ℚ) : Except ObjError ℚ :=
  if xs = [] then .error .EmptyInputError
  else
    let sorted := List.insertionSort (fun a b => a ≤ b) xs
    let hpos : ℚ := alpha * ((xs.length : ℚ) - 1)
    let lo : Nat := hpos.floor.toNat
    let hi : Nat := min (lo + 1) (xs.length - 1)
    .ok (sorted.getD lo 0 + (hpos - (lo : ℚ)) * (sorted.getD hi 0 - sorted.getD lo 0))

/-- Walk the value/weight pairs in sorted order accumulating mass; return the
first value whose cumulative mass reaches the threshold, or the last value. -/
def wqScan (thresh : ℚ) : ℚ → ℚ → List (ℚ × ℚ) → ℚ
  | _, fb, [] => fb
  | acc, _, (v, w) :: rest =>
      if thresh ≤ acc + w then v else wqScan thresh (acc + w) v rest

/-- Modelled from the spec: `common::WeightedQuantile` (stats.h) is not under
src/. Weighted order statistic: each label contributes cumulative probability
mass proportional to its weight; returns the first sorted label whose
cumulative mass reaches `alpha` times the total mass; fails with
`EmptyInputError` on an empty shard. -/
def specWeightedQuantile (alpha : ℚ) (xs ws : List ℚ) : Except ObjError ℚ :=
  if xs = [] then .error .EmptyInputError
  else
    let pairs := List.insertionSort (fun a b => a.1 ≤ b.1) (xs.zip ws)
    let total := (pairs.map Prod.snd).sum
    .ok (wqScan (alpha * total) 0 0 pairs)

/-- Modelled from the spec: `common::Mean` is not under src/; arithmetic mean
of a vector. -/
def meanOf (xs : List ℚ) : ℚ := xs.sum / (xs.length : ℚ)

/-- Modelled from the spec: `kRtEps` (xgboost/base.h) is not under src/; the
small numerical-stability constant, 1e-6. -/
def kRtEps : ℚ := 1 / 1000000

/-- The host-path per-level quantile loop of `InitEstimation`: for each target
`t`, the (optionally weighted) empirical quantile of the label column at level
`param_.quantile_alpha[t]`, with the `CHECK_EQ(h_weights.size(), h_labels.Size())`
shape check on the weighted path. -/
def localQuantiles (obj : QuantileRegression) (info : MetaInfo) :
    Except ObjError (List ℚ) :=
  match obj.Targets info with
  | .error e => .error e
  | .ok nTargets =>
      (List.range nTargets).mapM fun t =>
        if info.weights.isEmpty then
          specQuantile (obj.param_.quantile_alpha.getD t 0) info.labelsCol0
        else if info.weights.length ≠ info.labelsCol0.length then
          .error .ShapeMismatchError
        else
          specWeightedQuantile (obj.param_.quantile_alpha.getD t 0)
            info.labelsCol0 info.weights

/-- The local weight sum `sw` of `InitEstimation`: the row count when weights
are absent, otherwise the sum of the weights. -/
def localWeightSum (info : MetaInfo) : ℚ :=
  if info.weights.isEmpty then (info.num_row : ℚ) else info.weights.sum

/-- One worker's contribution to the global reduction of `InitEstimation`: the
2-vector `(mean(quantiles) * sw, sw)`, after the `CHECK(!alpha_.Empty())`
guard. -/
def localPair (obj : QuantileRegression) (info : MetaInfo) :
    Except ObjError (ℚ × ℚ) :=
  if obj.alpha_.isEmpty then .error .ConfigurationError
  else
    match localQuantiles obj info with
    | .error e => .error e
    | .ok qs => .ok (meanOf qs * localWeightSum info, localWeightSum info)

/-- Modelled from the spec: `collective::GlobalSum` is not under src/; the
blocking collective returns the elementwise sum of the contributed 2-vectors
across all workers. -/
def globalSum2 (dats : List (ℚ × ℚ)) : ℚ × ℚ :=
  ((dats.map Prod.fst).sum, (dats.map Prod.snd).sum)

/-- The finalization of `InitEstimation`: divide the reduced weighted mean by
the reduced weight sum plus `kRtEps`. -/
def combinedBaseScore (dats : List (ℚ × ℚ)) : ℚ :=
  (globalSum2 dats).1 / ((globalSum2 dats).2 + kRtEps)

/-- `QuantileRegression::InitEstimation` over a set of cooperating workers:
each worker computes its local 2-vector, the collective sums them, and the
base-score vector is reshaped to length 1 and filled with the combined
value. -/
def InitEstimation (obj : QuantileRegression) (workers : List MetaInfo) :
    Except ObjError (List ℚ) :=
  match workers.mapM (localPair obj) with
  | .error e => .error e
  | .ok dats => .ok [combinedBaseScore dats]

/-- The structured document written by `SaveConfig`: the `name` tag and the
`quantile_loss_param` payload. -/
structure ConfigDoc where
  name : String
  quantile_loss_param : QuantileLossParam
deriving DecidableEq

/-- `QuantileRegression::SaveConfig`. -/
def SaveConfig (obj : QuantileRegression) : ConfigDoc :=
  ⟨objectiveName, obj.param_⟩

/-- `QuantileRegression::LoadConfig`: checks the `name` tag against the fixed
objective identifier, then restores `param_` and refreshes `alpha_`. -/
def LoadConfig (doc : ConfigDoc) : Except ObjError QuantileRegression :=
  if doc.name ≠ objectiveName then .error .SchemaMismatchError
  else .ok ⟨doc.quantile_loss_param, doc.quantile_loss_param.quantile_alpha⟩

/-- Concrete configured objective with levels 1/2 and 1/4, used by witnesses. -/
def sampleObj : QuantileRegression := ⟨⟨[1/2, 1/4]⟩, [1/2, 1/4]⟩

/-- Concrete configured objective with the single level 1/2, used by witnesses. -/
def obj05 : QuantileRegression := ⟨⟨[1/2]⟩, [1/2]⟩

/-- Concrete one-row unweighted dataset with label 2, used by witnesses. -/
def sampleInfo : MetaInfo := ⟨[2], 1, [], 1, true⟩

/-- Concrete two-row unweighted dataset with labels 1 and 2, used by witnesses. -/
def infoA : MetaInfo := ⟨[1, 2], 1, [], 2, true⟩

/-- Concrete one-row unweighted dataset with label 100, used by witnesses. -/
def infoB : MetaInfo := ⟨[100], 1, [], 1, true⟩

/-- The concatenation of infoA and infoB as a single worker's dataset. -/
def infoAB : MetaInfo := ⟨[1, 2, 100], 1, [], 3, true⟩

theorem Targets_ok_elim (obj : QuantileRegression) (info : MetaInfo) (n : Nat)
    (h : obj.Targets info = .ok n) :
    obj.param_.quantile_alpha.length = obj.alpha_.length ∧
    obj.param_.quantile_alpha ≠ [] ∧
    (info.shouldHaveLabels = true → info.labelShape1 = 1) ∧
    n = obj.alpha_.length * max 1 info.labelShape1 := by
  unfold QuantileRegression.Targets at h
  split_ifs at h with h1 h2 h3
  · injection h with h
    refine ⟨by omega, h3, fun hs => by tauto, h.symm⟩

theorem Targets_ok_intro (obj : QuantileRegression) (info : MetaInfo)
    (hlen : obj.param_.quantile_alpha.length = obj.alpha_.length)
    (hne : obj.param_.quantile_alpha ≠ [])
    (hshape : info.shouldHaveLabels = true → info.labelShape1 = 1) :
    obj.Targets info = .ok (obj.alpha_.length * max 1 info.labelShape1) := by
  unfold QuantileRegression.Targets
  rw [if_neg (by omega), if_neg (by tauto), if_neg hne]

theorem getGradient_ok_elim (obj : QuantileRegression) (info : MetaInfo)
    (preds : List ℚ) (iter : ℤ) (g : List (List GradientPair))
    (h : GetGradient obj info preds iter = .ok g) :
    info.labelShape1 = 1 ∧
    preds.length = info.num_row * obj.alpha_.length ∧
    g = gradCells obj info preds obj.alpha_.length := by
  unfold GetGradient at h
  repeat' split at h
  any_goals exact Except.noConfusion h
  rename_i nT hT h0 hge hsz hsh
  injection h with h
  obtain ⟨hl, hp, hs, hn⟩ := Targets_ok_elim _ _ _ hT
  have h1 : info.labelShape1 = 1 := not_ne_iff.mp hsh
  have hsz2 : preds.length = info.num_row * nT := not_ne_iff.mp hsz
  rw [h1] at hn
  simp only [max_self, Nat.mul_one] at hn
  subst hn
  exact ⟨h1, hsz2, h.symm⟩

theorem gradCells_cell (obj : QuantileRegression) (info : MetaInfo)
    (preds : List ℚ) (n i j : Nat) (hi : i < info.num_row) (hj : j < n) :
    ((gradCells obj info preds n).getD i []).getD j default =
      pinballGradHess (obj.alpha_.getD j 0) (weightAt info i)
        (predsAt preds n i j - labelAt info i) := by
  simp only [gradCells, List.getD_eq_getElem?_getD, List.getElem?_map,
    List.getElem?_range hi, List.getElem?_range hj, Option.map_some', Option.getD_some]

theorem gradCells_congr (obj1 obj2 : QuantileRegression) (info1 info2 : MetaInfo)
    (preds : List ℚ) (n : Nat)
    (ha : obj1.alpha_ = obj2.alpha_) (hl : info1.labelsCol0 = info2.labelsCol0)
    (hw : info1.weights = info2.weights) (hr : info1.num_row = info2.num_row) :
    gradCells obj1 info1 preds n = gradCells obj2 info2 preds n := by
  unfold gradCells weightAt labelAt
  rw [ha, hl, hw, hr]

theorem Configure_ok_elim (levels : List ℚ) (obj : QuantileRegression)
    (hc : Configure levels = .ok obj) :
    levels ≠ [] ∧ obj = ⟨⟨levels⟩, levels⟩ := by
  unfold Configure validateParam at hc
  by_cases hemp : levels = []
  · simp [hemp] at hc
  · simp only [hemp, if_neg, ite_false] at hc
    injection hc with hc
    exact ⟨hemp, hc.symm⟩

/-- C1: for every sample i (label y_i, weight w_i, with w_i = 1 when no weights
are supplied) and quantile index j with level alpha_j, a successful GetGradient
writes at cell (i,j) the hessian w_i and the gradient (1 - alpha_j) * w_i when
prediction(i,j) - y_i >= 0 and -alpha_j * w_i when it is negative; at the tie
d = 0 the over-prediction branch (1 - alpha_j) * w_i is selected. -/
theorem getGradient_pinball_formula (obj : QuantileRegression) (info : MetaInfo)
    (preds : List ℚ) (iter : ℤ) (g : List (List GradientPair)) (i j : Nat)
    (hok : GetGradient obj info preds iter = .ok g)
    (hi : i < info.num_row) (hj : j < obj.alpha_.length) :
    (g.getD i []).getD j default =
      ⟨if 0 ≤ predsAt preds obj.alpha_.length i j - labelAt info i then
          (1 - obj.alpha_.getD j 0) * weightAt info i
        else -(obj.alpha_.getD j 0) * weightAt info i, weightAt info i⟩ ∧
    (predsAt preds obj.alpha_.length i j - labelAt info i = 0 →
      (g.getD i []).getD j default =
        ⟨(1 - obj.alpha_.getD j 0) * weightAt info i, weightAt info i⟩) ∧
    (info.weights.isEmpty = true → weightAt info i = 1) := by
  obtain ⟨hs, hp, hg⟩ := getGradient_ok_elim _ _ _ _ _ hok
  subst hg
  rw [gradCells_cell _ _ _ _ _ _ hi hj]
  unfold pinballGradHess
  refine ⟨?_, ?_, fun hw => by unfold weightAt; rw [if_pos hw]⟩
  · split <;> rfl
  · intro hd
    rw [if_pos (le_of_eq hd.symm)]

/-- Witness for C1 at a concrete input with a d = 0 cell. -/
theorem getGradient_pinball_formula_witness :
    GetGradient sampleObj sampleInfo [2, 1] 1 = .ok [[⟨1/2, 1⟩, ⟨-1/4, 1⟩]] ∧
    (([[⟨(1:ℚ)/2, 1⟩, ⟨-1/4, 1⟩]] : List (List GradientPair)).getD 0 []).getD 0 default =
      ⟨1/2, 1⟩ := by
  have hok : GetGradient sampleObj sampleInfo [2, 1] 1 =
      .ok [[⟨1/2, 1⟩, ⟨-1/4, 1⟩]] := by with_unfolding_all rfl
  refine ⟨hok, ?_⟩
  have h := getGradient_pinball_formula sampleObj sampleInfo [2, 1] 1
    [[⟨1/2, 1⟩, ⟨-1/4, 1⟩]] 0 0 hok (by simp [sampleInfo]) (by simp [sampleObj])
  have hd : predsAt [2, 1] sampleObj.alpha_.length 0 0 - labelAt sampleInfo 0 = 0 := by
    with_unfolding_all rfl
  have h2 := h.2.1 hd
  rw [h2]
  have : (1 - sampleObj.alpha_.getD 0 0) * weightAt sampleInfo 0 = 1/2 := by
    with_unfolding_all rfl
  have hw : weightAt sampleInfo 0 = 1 := by with_unfolding_all rfl
  rw [this, hw]

/-- C2: for a configured objective, Targets returns the level count times
max(1, label columns); it fails with UnsupportedShapeError when labels are
present with more than one column, and returns exactly the level count for
single-column labels. -/
theorem targets_count (obj : QuantileRegression) (info : MetaInfo)
    (hconf : obj.param_.quantile_alpha = obj.alpha_) (hne : obj.alpha_ ≠ []) :
    (info.shouldHaveLabels = true ∧ 1 < info.labelShape1 →
      obj.Targets info = .error .UnsupportedShapeError) ∧
    (info.shouldHaveLabels = false ∨ info.labelShape1 = 1 →
      obj.Targets info = .ok (obj.alpha_.length * max 1 info.labelShape1)) ∧
    (info.labelShape1 = 1 → obj.Targets info = .ok obj.alpha_.length) := by
  have hlen : obj.param_.quantile_alpha.length = obj.alpha_.length := by rw [hconf]
  have hpne : obj.param_.quantile_alpha ≠ [] := by rw [hconf]; exact hne
  refine ⟨fun hmt => ?_, fun hok => ?_, fun h1 => ?_⟩
  · unfold QuantileRegression.Targets
    rw [if_neg (by omega), if_pos ⟨hmt.1, by omega⟩]
  · refine Targets_ok_intro obj info hlen hpne fun hs => ?_
    rcases hok with hf | h1
    · exact absurd hf (by simp [hs])
    · exact h1
  · have := Targets_ok_intro obj info hlen hpne (fun _ => h1)
    rw [h1] at this
    simpa using this

/-- Witness for C2 at a concrete configured objective and dataset. -/
theorem targets_count_witness :
    QuantileRegression.Targets sampleObj sampleInfo = .ok 2 := by
  have h := targets_count sampleObj sampleInfo rfl (by simp [sampleObj])
  have h2 := h.2.2 (by simp [sampleInfo])
  simpa [sampleObj] using h2

/-- C3: serializing a configured objective and deserializing the resulting
document reproduces the identical quantile-level list, and deserialization
fails with SchemaMismatchError whenever the document's name tag differs from
the fixed objective identifier. -/
theorem config_roundtrip (levels : List ℚ) (obj : QuantileRegression)
    (hc : Configure levels = .ok obj) :
    LoadConfig (SaveConfig obj) = .ok obj ∧
    (∀ r, LoadConfig (SaveConfig obj) = .ok r →
      r.param_.quantile_alpha = levels ∧ r.alpha_ = levels) ∧
    (∀ doc : ConfigDoc, doc.name ≠ objectiveName →
      LoadConfig doc = .error .SchemaMismatchError) := by
  obtain ⟨hemp, hobj⟩ := Configure_ok_elim _ _ hc
  · subst hobj
    refine ⟨by simp [LoadConfig, SaveConfig], ?_, ?_⟩
    · intro r hr
      have hr2 : (Except.ok ⟨⟨levels⟩, levels⟩ : Except ObjError QuantileRegression) =
          .ok r := by
        rw [← hr]; simp [LoadConfig, SaveConfig]
      injection hr2 with hr2
      rw [← hr2]
      exact ⟨rfl, rfl⟩
    · intro doc hd
      unfold LoadConfig
      rw [if_pos hd]

/-- Witness for C3 with levels [0.1, 0.5, 0.9] and an altered name tag. -/
theorem config_roundtrip_witness :
    LoadConfig (SaveConfig ⟨⟨[1/10, 1/2, 9/10]⟩, [1/10, 1/2, 9/10]⟩) =
      .ok ⟨⟨[1/10, 1/2, 9/10]⟩, [1/10, 1/2, 9/10]⟩ ∧
    LoadConfig ⟨"reg:squarederror", ⟨[1/10, 1/2, 9/10]⟩⟩ =
      .error .SchemaMismatchError := by
  have h := config_roundtrip [1/10, 1/2, 9/10] ⟨⟨[1/10, 1/2, 9/10]⟩, [1/10, 1/2, 9/10]⟩
    (by with_unfolding_all rfl)
  exact ⟨h.1, h.2.2 ⟨"reg:squarederror", ⟨[1/10, 1/2, 9/10]⟩⟩ (by decide)⟩

/-- C4: each worker contributes the 2-vector (mean of the per-level quantile
estimates times the local weight sum, local weight sum), the local weight sum
being the row count without weights and the weight total otherwise; after the
global sum reduction, the combined base score is the summed weighted mean
divided by the summed weight plus the fixed constant kRtEps. -/
theorem initEstimation_aggregation (obj : QuantileRegression) (info : MetaInfo)
    (qs : List ℚ) (workers : List MetaInfo) (dats : List (ℚ × ℚ))
    (hne : obj.alpha_ ≠ []) (hq : localQuantiles obj info = .ok qs)
    (hd : workers.mapM (localPair obj) = .ok dats) :
    localPair obj info = .ok (meanOf qs * localWeightSum info, localWeightSum info) ∧
    localWeightSum info =
      (if info.weights.isEmpty then (info.num_row : ℚ) else info.weights.sum) ∧
    InitEstimation obj workers =
      .ok [(dats.map Prod.fst).sum / ((dats.map Prod.snd).sum + kRtEps)] := by
  refine ⟨?_, rfl, ?_⟩
  · unfold localPair
    rw [if_neg (by simpa using hne), hq]
  · unfold InitEstimation
    rw [hd]
    rfl

/-- Witness for C4 at a concrete two-level objective and one worker. -/
theorem initEstimation_aggregation_witness :
    localPair sampleObj infoA =
      .ok (meanOf [3/2, 5/4] * localWeightSum infoA, localWeightSum infoA) ∧
    InitEstimation sampleObj [infoA] =
      .ok [(([((11:ℚ)/4, (2:ℚ))].map Prod.fst).sum /
        (([((11:ℚ)/4, (2:ℚ))].map Prod.snd).sum + kRtEps))] := by
  have h := initEstimation_aggregation sampleObj infoA [3/2, 5/4] [infoA] [(11/4, 2)]
    (by simp [sampleObj]) (by with_unfolding_all rfl) (by with_unfolding_all rfl)
  exact ⟨h.1, h.2.2⟩

/-- C5 (amended): for two workers with local reduction pairs p1 and p2, the
combined base score equals (p1.1 + p2.1) / (p1.2 + p2.2 + kRtEps), the
epsilon-regularized weighted average; equality with the plain weighted average
and with the single-process value on the concatenated dataset fails in
general. -/
theorem initEstimation_two_workers (obj : QuantileRegression) (w1 w2 : MetaInfo)
    (p1 p2 : ℚ × ℚ)
    (h1 : localPair obj w1 = .ok p1) (h2 : localPair obj w2 = .ok p2) :
    InitEstimation obj [w1, w2] = .ok [(p1.1 + p2.1) / (p1.2 + p2.2 + kRtEps)] := by
  have hm : [w1, w2].mapM (localPair obj) = .ok [p1, p2] := by
    rw [List.mapM_cons, List.mapM_cons, List.mapM_nil, h1, h2]
    rfl
  unfold InitEstimation
  rw [hm]
  simp [combinedBaseScore, globalSum2]

/-- C5 counterexample: for two concrete workers the combined score differs from
the plain weighted average Σ(meanq_i·sw_i)/Σsw_i (here 103/3) because of the
kRtEps term, and differs from the single-process computation over the
concatenated dataset because the mean of quantiles is not additive across
shards. -/
theorem initEstimation_two_workers_counterexample :
    InitEstimation obj05 [infoA, infoB] ≠ .ok [103 / 3] ∧
    InitEstimation obj05 [infoA, infoB] ≠ InitEstimation obj05 [infoAB] :=
  ⟨of_decide_eq_false (by with_unfolding_all rfl),
   of_decide_eq_false (by with_unfolding_all rfl)⟩

/-- C6: for labels [1,2,3,4,5], no weights and level 1/2, the unweighted
estimator used by InitEstimation returns the standard median 3, and the
weighted estimator with uniform weights returns the same value. -/
theorem quantile_median_roundtrip :
    specQuantile (1/2) [1, 2, 3, 4, 5] = .ok 3 ∧
    specWeightedQuantile (1/2) [1, 2, 3, 4, 5] [1, 1, 1, 1, 1] = .ok 3 ∧
    localQuantiles obj05 ⟨[1, 2, 3, 4, 5], 1, [], 5, true⟩ = .ok [3] ∧
    localQuantiles obj05 ⟨[1, 2, 3, 4, 5], 1, [1, 1, 1, 1, 1], 5, true⟩ = .ok [3] :=
  ⟨by with_unfolding_all rfl, by with_unfolding_all rfl,
   by with_unfolding_all rfl, by with_unfolding_all rfl⟩

/-- C9: a successful InitEstimation returns a base-score vector of length
exactly 1, whose single entry is the globally aggregated mean value, for any
number of configured levels. -/
theorem initEstimation_scalar_output (obj : QuantileRegression)
    (workers : List MetaInfo) (v : List ℚ)
    (h : InitEstimation obj workers = .ok v) :
    v.length = 1 ∧
    ∃ dats, workers.mapM (localPair obj) = .ok dats ∧
      v = [combinedBaseScore dats] := by
  unfold InitEstimation at h
  split at h
  · exact Except.noConfusion h
  · rename_i dats hd
    injection h with h
    exact ⟨by rw [← h]; rfl, dats, hd, h.symm⟩

/-- Witness for C9 at a two-level objective and one concrete worker. -/
theorem initEstimation_scalar_output_witness :
    ([((11:ℚ)/4) / (2 + kRtEps)] : List ℚ).length = 1 :=
  (initEstimation_scalar_output sampleObj [infoA] [((11:ℚ)/4) / (2 + kRtEps)]
    (by with_unfolding_all rfl)).1

/-- C10: the gradient pair at cell (i,j) is a function only of prediction(i,j),
label(i), weight(i) and alpha(j): two successful calls agreeing on those data
agree at that cell, and calls agreeing on labels, weights, row count, level
vector and predictions produce identical gradient matrices, independent of the
remaining state. -/
theorem getGradient_cell_pure (obj1 obj2 : QuantileRegression)
    (info1 info2 : MetaInfo) (preds1 preds2 : List ℚ) (iter1 iter2 : ℤ)
    (g1 g2 : List (List GradientPair)) (i j : Nat)
    (h1 : GetGradient obj1 info1 preds1 iter1 = .ok g1)
    (h2 : GetGradient obj2 info2 preds2 iter2 = .ok g2)
    (hi1 : i < info1.num_row) (hi2 : i < info2.num_row)
    (hj1 : j < obj1.alpha_.length) (hj2 : j < obj2.alpha_.length)
    (hp : predsAt preds1 obj1.alpha_.length i j = predsAt preds2 obj2.alpha_.length i j)
    (hl : labelAt info1 i = labelAt info2 i)
    (hw : weightAt info1 i = weightAt info2 i)
    (ha : obj1.alpha_.getD j 0 = obj2.alpha_.getD j 0) :
    (g1.getD i []).getD j default = (g2.getD i []).getD j default ∧
    (obj1.alpha_ = obj2.alpha_ → info1.labelsCol0 = info2.labelsCol0 →
      info1.weights = info2.weights → info1.num_row = info2.num_row →
      preds1 = preds2 → g1 = g2) := by
  obtain ⟨hs1, hp1, hg1⟩ := getGradient_ok_elim _ _ _ _ _ h1
  obtain ⟨hs2, hp2, hg2⟩ := getGradient_ok_elim _ _ _ _ _ h2
  subst hg1 hg2
  constructor
  · rw [gradCells_cell _ _ _ _ _ _ hi1 hj1, gradCells_cell _ _ _ _ _ _ hi2 hj2,
      hp, hl, hw, ha]
  · intro ea el ew er ep
    rw [ep, ea]
    exact gradCells_congr _ _ _ _ _ _ ea el ew er

/-- Witness for C10: two identical concrete calls agree at cell (0,0). -/
theorem getGradient_cell_pure_witness :
    (([[⟨(1:ℚ)/2, 1⟩, ⟨-1/4, 1⟩]] : List (List GradientPair)).getD 0 []).getD 0 default =
      (([[⟨(1:ℚ)/2, 1⟩, ⟨-1/4, 1⟩]] : List (List GradientPair)).getD 0 []).getD 0 default :=
  (getGradient_cell_pure sampleObj sampleObj sampleInfo sampleInfo [2, 1] [2, 1] 1 1
    [[⟨1/2, 1⟩, ⟨-1/4, 1⟩]] [[⟨1/2, 1⟩, ⟨-1/4, 1⟩]] 0 0
    (by with_unfolding_all rfl) (by with_unfolding_all rfl)
    (by simp [sampleInfo]) (by simp [sampleInfo])
    (by simp [sampleObj]) (by simp [sampleObj])
    rfl rfl rfl rfl).1

/-- C7: for a configured objective at a non-initial iteration, GetGradient
fails with ShapeMismatchError whenever the prediction buffer size differs from
num_rows times the target count (single-column labels), fails with
UnsupportedShapeError whenever the label matrix has more than one column
(reached through Targets when labels are expected, or through the direct label
check otherwise), and on failure no gradient matrix is produced. -/
theorem getGradient_shape_errors (obj : QuantileRegression) (info : MetaInfo)
    (preds : List ℚ) (iter : ℤ)
    (hconf : obj.param_.quantile_alpha = obj.alpha_) (hne : obj.alpha_ ≠ [])
    (hiter : iter ≠ 0) :
    (info.labelShape1 ≠ 1 ∧
        (info.shouldHaveLabels = true ∨
          preds.length = info.num_row * (obj.alpha_.length * max 1 info.labelShape1)) →
      GetGradient obj info preds iter = .error .UnsupportedShapeError) ∧
    (info.labelShape1 = 1 ∧ preds.length ≠ info.num_row * obj.alpha_.length →
      GetGradient obj info preds iter = .error .ShapeMismatchError) ∧
    (∀ e g, GetGradient obj info preds iter = .error e →
      GetGradient obj info preds iter ≠ .ok g) := by
  have hlen : obj.param_.quantile_alpha.length = obj.alpha_.length := by rw [hconf]
  have hpne : obj.param_.quantile_alpha ≠ [] := by rw [hconf]; exact hne
  have hl0 : obj.alpha_.length ≠ 0 := fun h => hne (List.length_eq_zero.mp h)
  have hmax : obj.alpha_.length ≤ obj.alpha_.length * max 1 info.labelShape1 :=
    Nat.le_mul_of_pos_right _ (by positivity)
  refine ⟨?_, ?_, ?_⟩
  · rintro ⟨hs, hcase⟩
    unfold GetGradient
    simp only [if_neg hiter]
    rw [if_neg (by omega)]
    cases hb : info.shouldHaveLabels with
    | true =>
        have hT : obj.Targets info = .error .UnsupportedShapeError := by
          unfold QuantileRegression.Targets
          rw [if_neg (by omega), if_pos ⟨hb, hs⟩]
        rw [hT]
    | false =>
        have hsz : preds.length =
            info.num_row * (obj.alpha_.length * max 1 info.labelShape1) := by
          rcases hcase with hf | hsz
          · exact absurd hf (by simp [hb])
          · exact hsz
        have hT := Targets_ok_intro obj info hlen hpne
          (fun hs2 => absurd hs2 (by simp [hb]))
        simp only [hT]
        rw [if_neg hl0, if_neg (by omega), if_neg (not_ne_iff.mpr hsz), if_pos hs]
  · rintro ⟨h1, hsz⟩
    unfold GetGradient
    simp only [if_neg hiter]
    rw [if_neg (by omega)]
    have hT := Targets_ok_intro obj info hlen hpne (fun _ => h1)
    rw [h1] at hT
    simp only [max_self, Nat.mul_one] at hT
    simp only [hT]
    rw [if_neg hl0, if_neg (by omega), if_pos hsz]
  · intro e g he hg
    rw [he] at hg
    exact Except.noConfusion hg

/-- Witness for C7: multi-column labels give UnsupportedShapeError; a
mismatched prediction buffer gives ShapeMismatchError. -/
theorem getGradient_shape_errors_witness :
    GetGradient obj05 ⟨[2, 2], 2, [], 2, true⟩ [1, 1] 1 = .error .UnsupportedShapeError ∧
    GetGradient obj05 sampleInfo [1, 1] 1 = .error .ShapeMismatchError := by
  constructor
  · exact (getGradient_shape_errors obj05 ⟨[2, 2], 2, [], 2, true⟩ [1, 1] 1 rfl
      (by simp [obj05]) (by decide)).1 ⟨by decide, Or.inl rfl⟩
  · exact (getGradient_shape_errors obj05 sampleInfo [1, 1] 1 rfl
      (by simp [obj05]) (by decide)).2.1 ⟨rfl, by with_unfolding_all decide⟩

/-- C8: for every configured quantile-level list, quantile estimation during
InitEstimation on a worker whose shard has zero samples fails with
EmptyInputError. -/
theorem initEstimation_empty_shard (levels : List ℚ) (obj : QuantileRegression)
    (hc : Configure levels = .ok obj) :
    InitEstimation obj [⟨[], 1, [], 0, true⟩] = .error .EmptyInputError := by
  obtain ⟨hemp, hobj⟩ := Configure_ok_elim _ _ hc
  subst hobj
  obtain ⟨b, L, hb⟩ := List.exists_cons_of_ne_nil hemp
  have hT := Targets_ok_intro ⟨⟨levels⟩, levels⟩ ⟨[], 1, [], 0, true⟩ rfl hemp
    (fun _ => rfl)
  have hq : localQuantiles ⟨⟨levels⟩, levels⟩ ⟨[], 1, [], 0, true⟩ =
      .error .EmptyInputError := by
    have hT2 : (⟨⟨levels⟩, levels⟩ : QuantileRegression).Targets
        ⟨[], 1, [], 0, true⟩ = .ok (L.length + 1) := by
      rw [hT]
      congr 1
      rw [hb]; simp
    unfold localQuantiles
    simp only [hT2]
    rw [List.range_succ_eq_map, List.mapM_cons]
    rfl
  have hlp : localPair ⟨⟨levels⟩, levels⟩ ⟨[], 1, [], 0, true⟩ =
      .error .EmptyInputError := by
    unfold localPair
    rw [if_neg (by simpa using hemp), hq]
  have hm : ([⟨[], 1, [], 0, true⟩] : List MetaInfo).mapM
      (localPair ⟨⟨levels⟩, levels⟩) = .error .EmptyInputError := by
    rw [List.mapM_cons, hlp]
    rfl
  unfold InitEstimation
  rw [hm]

/-- Witness for C8 with the configured level list [1/2]. -/
theorem initEstimation_empty_shard_witness :
    InitEstimation obj05 [⟨[], 1, [], 0, true⟩] = .error .EmptyInputError :=
  initEstimation_empty_shard [1/2] obj05 (by with_unfolding_all rfl)

/-- Witness for the amended C5 at two concrete workers. -/
theorem initEstimation_two_workers_witness :
    InitEstimation obj05 [infoA, infoB] =
      .ok [((3:ℚ) + 100) / (2 + 1 + kRtEps)] :=
  initEstimation_two_workers obj05 infoA infoB (3, 2) (100, 1)
    (by with_unfolding_all rfl) (by with_unfolding_all rfl)
